import Mathlib

/-!
Shallow embedding of the cross-exchange arbitrage bot
(`src/arbitrage.py`, `src/strategy/edgex_arb.py`,
`src/strategy/order_book_manager.py`, `src/exchanges/paradex.py`)
and proofs about its decision logic, execution sequencing and
error handling.

Prices and quantities (Python `Decimal` / `float`) are modelled as `ℚ`.
Python exceptions are modelled explicitly: a function that may raise is
embedded with the raising outcome as an explicit constructor of its
input or output type, and `Option` results model operations (such as
list indexing) that can fault.
-/

set_option autoImplicit false
set_option linter.unusedVariables false
set_option linter.unnecessarySeqFocus false

namespace ArbBot

/-- A price level `[price, size]` as held in an order book. -/
abbrev Level := ℚ × ℚ

/-- Order book snapshot: the dict `{"bids": [...], "asks": [...]}` returned
by a venue adapter and cached by `OrderBookManager`. -/
structure Book where
  bids : List Level
  asks : List Level
deriving DecidableEq

/-- The blank book `{"bids": [], "asks": []}` that
`ParadexExchange.get_orderbook` returns on failure. -/
def emptyBook : Book := ⟨[], []⟩

/-- Decision of one evaluation cycle of `trading_loop`
(equivalently, the spec's `ArbitrageDecision`). -/
inductive Decision where
  | hold
  | longMaker (triggerPrice : ℚ)
  | shortMaker (triggerPrice : ℚ)
deriving DecidableEq

/-- A raw value inside the venue response; Python `float(v)` succeeds
exactly on `num` and raises on `malformed`. -/
inductive RawVal where
  | num (q : ℚ)
  | malformed
deriving DecidableEq

/-- Embedding of Python `float(v)`: `none` models a raised exception. -/
def RawVal.toFloat : RawVal → Option ℚ
  | .num q => some q
  | .malformed => none

/-- Raw L2 orderbook response from `client.get_orderbook`; a `none` field
models a missing key, read with `response.get(key, [])`. -/
structure RawResponse where
  bids : Option (List (RawVal × RawVal))
  asks : Option (List (RawVal × RawVal))

/-- One comprehension element `[float(i[0]), float(i[1])]`
(`src/exchanges/paradex.py` lines 38-39); `none` models a raised
conversion error. -/
def parseLevel : RawVal × RawVal → Option Level
  | (p, s) => do pure (← p.toFloat, ← s.toFloat)

/-- The whole comprehension over one side; any element failure aborts it
(the exception propagates to the enclosing `try`). -/
def parseLevels (xs : List (RawVal × RawVal)) : Option (List Level) :=
  xs.mapM parseLevel

/-- Behaviour of the underlying Paradex client during one
`get_orderbook` call. -/
inductive ClientBehavior where
  | noClient
  | raises
  | returns (r : RawResponse)

/-- A call fails when the client is absent, the query raises, or the
response contains a value `float` cannot convert. -/
def ClientBehavior.isFailure : ClientBehavior → Bool
  | .noClient => true
  | .raises => true
  | .returns r =>
      (parseLevels (r.bids.getD [])).isNone || (parseLevels (r.asks.getD [])).isNone

namespace ParadexExchange

/-- Embedding of `ParadexExchange.get_orderbook`
(`src/exchanges/paradex.py` lines 29-43): with no client it returns the
blank book; otherwise it queries the client in a `try`, converts both
sides, and on any exception returns the blank book. The `ticker`
argument only selects the symbol passed to the client query, whose
outcome is the `ClientBehavior` argument. Totality of this definition
embeds the fact that no exception escapes to the caller. -/
def get_orderbook (ticker : String) (cb : ClientBehavior) : Book :=
  match cb with
  | .noClient => emptyBook
  | .raises => emptyBook
  | .returns r =>
      match parseLevels (r.bids.getD []), parseLevels (r.asks.getD []) with
      | some bs, some sells => { bids := bs, asks := sells }
      | _, _ => emptyBook

end ParadexExchange

namespace OrderBookManager

/-- One iteration of `OrderBookManager._update_maker_book`
(`src/strategy/order_book_manager.py` lines 14-18): the cached maker
book is unconditionally replaced by whatever the maker adapter's
`get_orderbook` returned for this refresh cycle. `prev` is the cache
before the iteration (`none` before the first fetch). The taker loop
`_update_taker_book` has the same unconditional-overwrite shape. -/
def update_maker_book (ticker : String) (prev : Option Book)
    (cb : ClientBehavior) : Option Book :=
  some (ParadexExchange.get_orderbook ticker cb)

/-- Embedding of `OrderBookManager.get_maker_book`: a plain read of the
cache field. -/
def get_maker_book (cache : Option Book) : Option Book := cache

end OrderBookManager

/-- Guard of `trading_loop` lines 137-140: all four sides must be
non-empty, else the cycle `continue`s without extracting prices. -/
def booksReady (makerBook takerBook : Book) : Bool :=
  !makerBook.bids.isEmpty && !makerBook.asks.isEmpty &&
  !takerBook.bids.isEmpty && !takerBook.asks.isEmpty

/-- Best price extraction `side[0][0]` (`trading_loop` lines 142-145);
`none` models an `IndexError` on an empty side. -/
def bestPrice (side : List Level) : Option ℚ :=
  side.head?.map Prod.fst

/-- One decision cycle of `trading_loop`
(`src/strategy/edgex_arb.py` lines 131-170), from reading the two cached
books to choosing an action. `trackerPos` is the net position the
`PositionTracker` would report this cycle; line 163 does not consult it
and sets `current_pos = Decimal('0')`. The result is `none` only if the
price extraction `[0][0]` faults (which never happens behind the guard;
proved below), otherwise `some` of the decision. -/
def tradingStep (makerBook takerBook : Book)
    (longThr shortThr maxPos trackerPos : ℚ) : Option Decision :=
  if booksReady makerBook takerBook = false then some .hold
  else
    match bestPrice makerBook.bids, bestPrice makerBook.asks,
          bestPrice takerBook.bids, bestPrice takerBook.asks with
    | some makerBid, some makerAsk, some takerBid, some takerAsk =>
        let longEx : Bool := decide (takerBid - makerBid > longThr)
        let shortEx : Bool := !longEx && decide (makerAsk - takerAsk > shortThr)
        let currentPos : ℚ := 0
        some (if longEx && decide (currentPos < maxPos) then .longMaker makerBid
              else if shortEx && decide (currentPos > -maxPos) then .shortMaker makerAsk
              else .hold)
    | _, _, _, _ => none

/-- Reference decision function written from the spec's words (claim C1):
long spread first with its position gate; otherwise the short spread
with its position gate; otherwise `Hold`; `Hold` when either book is
not ready. Used only to compare against `tradingStep`. -/
def specDecision (makerBook takerBook : Book)
    (longThr shortThr netPos maxPos : ℚ) : Decision :=
  match bestPrice makerBook.bids, bestPrice makerBook.asks,
        bestPrice takerBook.bids, bestPrice takerBook.asks with
  | some makerBid, some makerAsk, some takerBid, some takerAsk =>
      if takerBid - makerBid > longThr ∧ netPos < maxPos then .longMaker makerBid
      else if makerAsk - takerAsk > shortThr ∧ netPos > -maxPos then .shortMaker makerAsk
      else .hold
  | _, _, _, _ => .hold

/-- Which adapter object a `place_order` call went to. -/
inductive Adapter where
  | maker
  | taker
deriving DecidableEq

/-- Order side string (`"BUY"` / `"SELL"`). -/
inductive Side where
  | buy
  | sell
deriving DecidableEq

/-- Order type string (`"LIMIT"` / `"MARKET"`). -/
inductive OrderType where
  | limit
  | market
deriving DecidableEq

/-- The literal venue string written by `log_trade_to_csv` calls at
`src/strategy/edgex_arb.py` lines 212 and 242. -/
def paradexName : String := "paradex"

/-- Observable effects of a trade-execution call, in program order:
adapter `place_order` calls, the `asyncio.sleep` between the legs, and
`data_logger.log_trade_to_csv` appends. -/
inductive Event where
  | placeOrder (a : Adapter) (side : Side) (price : Option ℚ) (qty : ℚ)
      (ot : OrderType) (postOnly : Bool)
  | sleep (seconds : ℚ)
  | record (venue : String) (side : Side) (price : ℚ) (qty : ℚ)
deriving DecidableEq

/-- Outcome of the maker leg's `place_order` call: the call raises, or it
returns an order id value (`none` models Python `None`). -/
inductive MakerPlaceResult where
  | raises
  | returns (orderId : Option String)
deriving DecidableEq

/-- Python truthiness of the returned order id, as tested by
`if not order_id` (line 188): `None` and the empty string are falsy. -/
def truthyId : Option String → Bool
  | none => false
  | some s => !s.isEmpty

/-- Embedding of `EdgexArb._execute_long_trade`
(`src/strategy/edgex_arb.py` lines 176-215) as the list of its observable
effects. Parameters: `stopFlag` is `self.stop_flag` (line 178 returns at
once when set); `makerName` is the configured maker exchange's name,
which the body never consults; `fillTimeout` is `self.fill_timeout`,
which the body never consults either — line 203 sleeps a fixed 1 second;
`makerResult` is the outcome of the maker `place_order` call and
`takerRaises` whether the taker `place_order` call raises (both
exceptions are caught by the enclosing `try`, so the function itself
always returns). -/
def execute_long_trade (stopFlag : Bool) (makerName : String)
    (fillTimeout : ℚ) (price qty : ℚ)
    (makerResult : MakerPlaceResult) (takerRaises : Bool) : List Event :=
  if stopFlag then []
  else
    Event.placeOrder .maker .buy (some price) qty .limit true ::
    match makerResult with
    | .raises => []
    | .returns oid =>
        if truthyId oid = false then []
        else
          Event.sleep 1 ::
          Event.placeOrder .taker .sell none qty .market false ::
          if takerRaises then [] else [Event.record paradexName .buy price qty]

/-- Embedding of `EdgexArb._execute_short_trade`
(`src/strategy/edgex_arb.py` lines 217-245), mirror image of
`execute_long_trade`: SELL post-only on the maker, then after the fixed
1-second sleep a BUY market order on the taker, then one record with the
literal venue string. -/
def execute_short_trade (stopFlag : Bool) (makerName : String)
    (fillTimeout : ℚ) (price qty : ℚ)
    (makerResult : MakerPlaceResult) (takerRaises : Bool) : List Event :=
  if stopFlag then []
  else
    Event.placeOrder .maker .sell (some price) qty .limit true ::
    match makerResult with
    | .raises => []
    | .returns oid =>
        if truthyId oid = false then []
        else
          Event.sleep 1 ::
          Event.placeOrder .taker .buy none qty .market false ::
          if takerRaises then [] else [Event.record paradexName .sell price qty]

/-- The `place_order` calls that reached the taker adapter. -/
def takerPlaceCalls (es : List Event) : List Event :=
  es.filter fun e =>
    match e with
    | .placeOrder .taker _ _ _ _ _ => true
    | _ => false

/-- The `log_trade_to_csv` appends in a trace. -/
def recordEvents (es : List Event) : List Event :=
  es.filter fun e =>
    match e with
    | .record _ _ _ _ => true
    | _ => false

/-- Venue strings of the records in a trace. -/
def recordVenues (es : List Event) : List String :=
  es.filterMap fun e =>
    match e with
    | .record v _ _ _ => some v
    | _ => none

/-- Durations of the sleeps in a trace. -/
def sleepDurations (es : List Event) : List ℚ :=
  es.filterMap fun e =>
    match e with
    | .sleep s => some s
    | _ => none

/-- One full cycle of `trading_loop`: the decision (lines 131-163) plus
the dispatch of lines 165-170, yielding the cycle's observable adapter
effects. A `Hold` cycle (and a faulting one, whose exception line 172
catches) performs no adapter call. -/
def cycleTrace (makerBook takerBook : Book)
    (longThr shortThr maxPos trackerPos : ℚ)
    (makerName : String) (fillTimeout qty : ℚ)
    (makerResult : MakerPlaceResult) (takerRaises : Bool) : List Event :=
  match tradingStep makerBook takerBook longThr shortThr maxPos trackerPos with
  | some (.longMaker p) =>
      execute_long_trade false makerName fillTimeout p qty makerResult takerRaises
  | some (.shortMaker p) =>
      execute_short_trade false makerName fillTimeout p qty makerResult takerRaises
  | _ => []

/-- A concrete ticker used to instantiate closed statements. -/
def tickerBTC : String := "BTC"

/-- A concrete non-empty (hence truthy) order id used to instantiate
closed statements. -/
def sampleOrderId : String := "m1"

/-- The per-cycle decision never faults and coincides with the spec's
reference decision function evaluated at net position zero: line 163
hardcodes `current_pos = Decimal('0')`, and at position zero the code's
two-level `elif` structure is observationally equal to the reference. -/
theorem tradingStep_eq_spec (makerBook takerBook : Book)
    (θL θS maxPos pos : ℚ) :
    tradingStep makerBook takerBook θL θS maxPos pos =
      some (specDecision makerBook takerBook θL θS 0 maxPos) := by
  obtain ⟨mbids, masks⟩ := makerBook
  obtain ⟨tbids, tasks⟩ := takerBook
  rcases mbids with _ | ⟨⟨mb, ms⟩, mrest⟩ <;>
  rcases masks with _ | ⟨⟨ma, sz1⟩, arest⟩ <;>
  rcases tbids with _ | ⟨⟨tb, sz2⟩, trest⟩ <;>
  rcases tasks with _ | ⟨⟨ta, sz3⟩, xrest⟩ <;>
  simp only [tradingStep, specDecision, booksReady, bestPrice, List.head?,
    List.isEmpty_nil, List.isEmpty_cons, Option.map_none', Option.map_some',
    Bool.not_true, Bool.not_false, Bool.and_self, Bool.and_true, Bool.true_and,
    Bool.and_false, Bool.false_and, Option.some.injEq] <;>
  try rfl
  split_ifs with h1 h2 h3 h4 <;>
  simp_all [decide_eq_true_eq] <;>
  try linarith
  rename_i hA hB hC
  exact absurd hC.2 (not_lt.2 (hB (by linarith)))

/-- The reference decision is `Hold` whenever any of the four book sides
is empty. -/
theorem specDecision_empty (makerBook takerBook : Book) (θL θS netPos maxPos : ℚ)
    (h : makerBook.bids = [] ∨ makerBook.asks = [] ∨
         takerBook.bids = [] ∨ takerBook.asks = []) :
    specDecision makerBook takerBook θL θS netPos maxPos = .hold := by
  obtain ⟨mbids, masks⟩ := makerBook
  obtain ⟨tbids, tasks⟩ := takerBook
  rcases mbids with _ | ⟨⟨mb, ms⟩, mrest⟩ <;>
  rcases masks with _ | ⟨⟨ma, sz1⟩, arest⟩ <;>
  rcases tbids with _ | ⟨⟨tb, sz2⟩, trest⟩ <;>
  rcases tasks with _ | ⟨⟨ta, sz3⟩, xrest⟩ <;>
  simp_all [specDecision, bestPrice]

/-- With `max_position = 0` and net position `0` both directional gates
of the reference decision are false, so it always holds. -/
theorem specDecision_max_zero (makerBook takerBook : Book) (θL θS : ℚ) :
    specDecision makerBook takerBook θL θS 0 0 = .hold := by
  obtain ⟨mbids, masks⟩ := makerBook
  obtain ⟨tbids, tasks⟩ := takerBook
  rcases mbids with _ | ⟨⟨mb, ms⟩, mrest⟩ <;>
  rcases masks with _ | ⟨⟨ma, sz1⟩, arest⟩ <;>
  rcases tbids with _ | ⟨⟨tb, sz2⟩, trest⟩ <;>
  rcases tasks with _ | ⟨⟨ta, sz3⟩, xrest⟩ <;>
  simp [specDecision, bestPrice]

/-- A failing orderbook fetch yields the blank book. -/
theorem get_orderbook_failure (ticker : String) (cb : ClientBehavior)
    (h : cb.isFailure = true) :
    ParadexExchange.get_orderbook ticker cb = emptyBook := by
  cases cb with
  | noClient => rfl
  | raises => rfl
  | returns r =>
      simp only [ClientBehavior.isFailure, Bool.or_eq_true, Option.isNone_iff_eq_none] at h
      simp only [ParadexExchange.get_orderbook]
      rcases h with h | h <;> rw [h]
      cases parseLevels (r.bids.getD []) <;> rfl

/-- C1 (amended): in every evaluation cycle the decision equals the
reference definition evaluated at net position 0 — line 163 hardcodes
`current_pos = Decimal('0')`, so the tracker's net position never
influences the gates; at net position 0 the code's spread-level `elif`
is observationally equal to the reference's ordering. -/
theorem C1_decision_equals_reference_at_zero_position
    (makerBook takerBook : Book) (θL θS maxPos trackerPos : ℚ) :
    tradingStep makerBook takerBook θL θS maxPos trackerPos =
      some (specDecision makerBook takerBook θL θS 0 maxPos) :=
  tradingStep_eq_spec makerBook takerBook θL θS maxPos trackerPos

/-- C1 (counterexample): with both spreads above their thresholds,
tracker net position 5 and `max_position` 5, the claimed reference
returns `ShortMaker` (long gate `5 < 5` fails, short gate passes), but
the code's cycle decides `LongMaker` (its gate compares the hardcoded
0 against `max_position`), so the claimed equality fails on this
concrete ready pair of books. -/
theorem C1_counterexample :
    tradingStep ⟨[(100, 1)], [(130, 1)]⟩ ⟨[(115, 1)], [(105, 1)]⟩ 10 10 5 5 =
      some (.longMaker 100) ∧
    specDecision ⟨[(100, 1)], [(130, 1)]⟩ ⟨[(115, 1)], [(105, 1)]⟩ 10 10 5 5 =
      .shortMaker 130 ∧
    Decision.longMaker 100 ≠ Decision.shortMaker 130 := by
  refine ⟨?_, ?_, ?_⟩
  · norm_num [tradingStep, booksReady, bestPrice]
  · norm_num [specDecision, bestPrice]
  · simp

/-- C4: the net position fed into the directional gates is not the
Position Tracker's last-known value: at the failing input the tracker
reports 5 with `max_position` 5, yet the cycle still decides
`LongMaker` because line 163 hardcodes `current_pos = Decimal('0')`;
the decision is identical when the tracker reports 0. -/
theorem C4_gates_ignore_tracker_position :
    tradingStep ⟨[(100, 1)], [(101, 1)]⟩ ⟨[(112, 1)], [(113, 1)]⟩ 10 10 5 5 =
      some (.longMaker 100) ∧
    tradingStep ⟨[(100, 1)], [(101, 1)]⟩ ⟨[(112, 1)], [(113, 1)]⟩ 10 10 5 5 =
      tradingStep ⟨[(100, 1)], [(101, 1)]⟩ ⟨[(112, 1)], [(113, 1)]⟩ 10 10 5 0 := by
  constructor <;> norm_num [tradingStep, booksReady, bestPrice]

/-- C7: with `max_position = 0` (the default) and net position 0, both
directional gates are false, so every cycle decides `Hold` and performs
no `place_order` call on either adapter, for every pair of books, every
pair of thresholds, and every adapter behaviour. -/
theorem C7_zero_max_position_never_trades (makerBook takerBook : Book)
    (θL θS : ℚ) (makerName : String) (fillTimeout qty : ℚ)
    (makerResult : MakerPlaceResult) (takerRaises : Bool) :
    tradingStep makerBook takerBook θL θS 0 0 = some .hold ∧
    cycleTrace makerBook takerBook θL θS 0 0
      makerName fillTimeout qty makerResult takerRaises = [] := by
  have h := tradingStep_eq_spec makerBook takerBook θL θS 0 0
  rw [specDecision_max_zero] at h
  exact ⟨h, by simp [cycleTrace, h]⟩

/-- C8: whenever any of the four book sides is empty the cycle decides
`Hold` with no adapter call, and the best-price extraction `[0][0]`
never faults on any input (the guard of lines 137-140 precedes it). -/
theorem C8_one_sided_book_holds (makerBook takerBook : Book)
    (θL θS maxPos trackerPos : ℚ) (makerName : String) (fillTimeout qty : ℚ)
    (makerResult : MakerPlaceResult) (takerRaises : Bool)
    (h : makerBook.bids = [] ∨ makerBook.asks = [] ∨
         takerBook.bids = [] ∨ takerBook.asks = []) :
    tradingStep makerBook takerBook θL θS maxPos trackerPos = some .hold ∧
    cycleTrace makerBook takerBook θL θS maxPos trackerPos
      makerName fillTimeout qty makerResult takerRaises = [] ∧
    ∀ (mb2 tb2 : Book), tradingStep mb2 tb2 θL θS maxPos trackerPos ≠ none := by
  have hs := tradingStep_eq_spec makerBook takerBook θL θS maxPos trackerPos
  rw [specDecision_empty _ _ _ _ _ _ h] at hs
  refine ⟨hs, by simp [cycleTrace, hs], fun mb2 tb2 => ?_⟩
  rw [tradingStep_eq_spec]
  simp

/-- C8 witness: a concrete cycle whose maker book has no bids. -/
theorem C8_one_sided_book_holds_witness :
    ((⟨[], [(101, 1)]⟩ : Book).bids = [] ∨ (⟨[], [(101, 1)]⟩ : Book).asks = [] ∨
     (⟨[(112, 1)], [(113, 1)]⟩ : Book).bids = [] ∨
     (⟨[(112, 1)], [(113, 1)]⟩ : Book).asks = []) ∧
    (tradingStep ⟨[], [(101, 1)]⟩ ⟨[(112, 1)], [(113, 1)]⟩ 10 10 5 0 = some .hold ∧
     cycleTrace ⟨[], [(101, 1)]⟩ ⟨[(112, 1)], [(113, 1)]⟩ 10 10 5 0
       tickerBTC 5 1 .raises false = [] ∧
     ∀ (mb2 tb2 : Book), tradingStep mb2 tb2 10 10 5 0 ≠ none) :=
  ⟨Or.inl rfl,
   C8_one_sided_book_holds ⟨[], [(101, 1)]⟩ ⟨[(112, 1)], [(113, 1)]⟩ 10 10 5 0
     tickerBTC 5 1 .raises false (Or.inl rfl)⟩

/-- C2 (amended): after a confirmed maker placement and before the taker
hedge leg, the coordinator sleeps a fixed 1 second (line 203 and line
235, `asyncio.sleep(1)`); the configured `fill_timeout` is stored on the
bot but does not influence this wait, in either the long or the short
leg sequence. -/
theorem C2_fill_wait_is_fixed_one_second (makerName : String)
    (fillTimeout price qty : ℚ) (oid : String) (takerRaises : Bool)
    (h : oid.isEmpty = false) :
    sleepDurations (execute_long_trade false makerName fillTimeout price qty
      (.returns (some oid)) takerRaises) = [1] ∧
    sleepDurations (execute_short_trade false makerName fillTimeout price qty
      (.returns (some oid)) takerRaises) = [1] := by
  cases takerRaises <;>
  constructor <;>
  simp [execute_long_trade, execute_short_trade, sleepDurations, truthyId, h]

/-- C2 witness: the fixed wait at a concrete configuration. -/
theorem C2_fill_wait_is_fixed_one_second_witness :
    sampleOrderId.isEmpty = false ∧
    (sleepDurations (execute_long_trade false tickerBTC 5 100 1
       (.returns (some sampleOrderId)) false) = [1] ∧
     sleepDurations (execute_short_trade false tickerBTC 5 100 1
       (.returns (some sampleOrderId)) false) = [1]) :=
  ⟨by decide,
   C2_fill_wait_is_fixed_one_second tickerBTC 5 100 1 sampleOrderId false (by decide)⟩

/-- C2 (counterexample): the wait before the hedge leg is the same
1-second sleep for `fill_timeout` 5 and `fill_timeout` 1000000, and at
`fill_timeout` 1/2 the 1-second sleep exceeds `fill_timeout`: the wait
is a fixed duration independent of the `fill_timeout` parameter, which
the claim denies. -/
theorem C2_counterexample :
    sleepDurations (execute_long_trade false tickerBTC 5 100 1
      (.returns (some sampleOrderId)) false) =
      sleepDurations (execute_long_trade false tickerBTC 1000000 100 1
        (.returns (some sampleOrderId)) false) ∧
    sleepDurations (execute_long_trade false tickerBTC (1 / 2) 100 1
      (.returns (some sampleOrderId)) false) = [1] ∧
    ¬ ((1 : ℚ) ≤ 1 / 2) := by
  have hm : sampleOrderId.isEmpty = false := rfl
  refine ⟨?_, ?_, by norm_num⟩ <;>
  simp [execute_long_trade, sleepDurations, truthyId, hm]

/-- C3 (amended): a failed fetch does not retain the previous snapshot:
the adapter maps the failure to the blank book and the refresh loop
unconditionally overwrites the cache with it, so the subsequent read
returns the blank book (treated downstream as not-ready) instead of the
last successful snapshot; no error is raised to callers (the embedding
is total). The taker refresh loop has the same overwrite shape. -/
theorem C3_failed_fetch_blanks_cache (ticker : String) (prev : Option Book)
    (cb : ClientBehavior) (h : cb.isFailure = true) :
    OrderBookManager.update_maker_book ticker prev cb = some emptyBook ∧
    OrderBookManager.get_maker_book
      (OrderBookManager.update_maker_book ticker prev cb) = some emptyBook := by
  have hb := get_orderbook_failure ticker cb h
  exact ⟨by simp [OrderBookManager.update_maker_book, hb],
         by simp [OrderBookManager.get_maker_book,
                  OrderBookManager.update_maker_book, hb]⟩

/-- C3 witness: a failed refresh over a concrete previous snapshot. -/
theorem C3_failed_fetch_blanks_cache_witness :
    ClientBehavior.isFailure .raises = true ∧
    (OrderBookManager.update_maker_book tickerBTC
       (some ⟨[(100, 1)], [(101, 1)]⟩) .raises = some emptyBook ∧
     OrderBookManager.get_maker_book (OrderBookManager.update_maker_book tickerBTC
       (some ⟨[(100, 1)], [(101, 1)]⟩) .raises) = some emptyBook) :=
  ⟨rfl, C3_failed_fetch_blanks_cache tickerBTC (some ⟨[(100, 1)], [(101, 1)]⟩)
    .raises rfl⟩

/-- C3 (counterexample): with the cache holding a previous successful
snapshot, a refresh whose fetch raises replaces the cache with the blank
book, which differs from the previous snapshot — the cached snapshot is
not unchanged. -/
theorem C3_counterexample :
    OrderBookManager.update_maker_book tickerBTC
      (some ⟨[(100, 1)], [(101, 1)]⟩) .raises = some emptyBook ∧
    some emptyBook ≠ some (⟨[(100, 1)], [(101, 1)]⟩ : Book) := by
  refine ⟨rfl, ?_⟩
  simp [emptyBook]

/-- C5: if the maker-leg `place_order` raises or returns `None`, the
sequence aborts with zero taker `place_order` calls and zero trade
records, in both the long and the short leg sequence. (The taker call
sites line 208 and line 238 are reached only behind the truthy order-id
test of line 188 resp. line 228, so a hedge is only ever placed after a
confirmed maker order id.) -/
theorem C5_no_orphan_hedge (makerName : String) (fillTimeout price qty : ℚ)
    (takerRaises : Bool) (makerResult : MakerPlaceResult)
    (h : makerResult = .raises ∨ makerResult = .returns none) :
    takerPlaceCalls (execute_long_trade false makerName fillTimeout price qty
      makerResult takerRaises) = [] ∧
    recordEvents (execute_long_trade false makerName fillTimeout price qty
      makerResult takerRaises) = [] ∧
    takerPlaceCalls (execute_short_trade false makerName fillTimeout price qty
      makerResult takerRaises) = [] ∧
    recordEvents (execute_short_trade false makerName fillTimeout price qty
      makerResult takerRaises) = [] := by
  rcases h with h | h <;> subst h <;>
  simp [execute_long_trade, execute_short_trade, takerPlaceCalls, recordEvents,
        truthyId]

/-- C5 witness: a concrete aborted long/short attempt whose maker call
returned `None`. -/
theorem C5_no_orphan_hedge_witness :
    ((MakerPlaceResult.returns none) = .raises ∨
     (MakerPlaceResult.returns none) = .returns none) ∧
    (takerPlaceCalls (execute_long_trade false tickerBTC 5 100 1
       (.returns none) false) = [] ∧
     recordEvents (execute_long_trade false tickerBTC 5 100 1
       (.returns none) false) = [] ∧
     takerPlaceCalls (execute_short_trade false tickerBTC 5 100 1
       (.returns none) false) = [] ∧
     recordEvents (execute_short_trade false tickerBTC 5 100 1
       (.returns none) false) = []) :=
  ⟨Or.inr rfl, C5_no_orphan_hedge tickerBTC 5 100 1 false (.returns none)
    (Or.inr rfl)⟩

/-- C6: in the concrete scenario (`long_threshold` 10, maker book
bids `[[100,1]]` asks `[[101,1]]`, taker book bids `[[112,1]]` asks
`[[113,1]]`, `max_position` 5, net position 0) the decision is
`LongMaker` with trigger price 100, and the cycle's effects are exactly:
a BUY post-only limit order at 100 for `order_quantity` on the maker,
the fixed sleep, a SELL market order (price `None`) for `order_quantity`
on the taker, then exactly one record with side BUY, price 100 and
quantity `order_quantity`. -/
theorem C6_scenario_long_trade (θS fillTimeout qty : ℚ)
    (makerName oid : String) (h : oid.isEmpty = false) :
    tradingStep ⟨[(100, 1)], [(101, 1)]⟩ ⟨[(112, 1)], [(113, 1)]⟩ 10 θS 5 0 =
      some (.longMaker 100) ∧
    cycleTrace ⟨[(100, 1)], [(101, 1)]⟩ ⟨[(112, 1)], [(113, 1)]⟩ 10 θS 5 0
      makerName fillTimeout qty (.returns (some oid)) false =
      [.placeOrder .maker .buy (some 100) qty .limit true,
       .sleep 1,
       .placeOrder .taker .sell none qty .market false,
       .record paradexName .buy 100 qty] := by
  have hd : tradingStep ⟨[(100, 1)], [(101, 1)]⟩ ⟨[(112, 1)], [(113, 1)]⟩
      10 θS 5 0 = some (.longMaker 100) := by
    rw [tradingStep_eq_spec]
    norm_num [specDecision, bestPrice]
  refine ⟨hd, ?_⟩
  simp [cycleTrace, hd, execute_long_trade, truthyId, h]

/-- C6 witness: the scenario at a concrete quantity and order id. -/
theorem C6_scenario_long_trade_witness :
    sampleOrderId.isEmpty = false ∧
    (tradingStep ⟨[(100, 1)], [(101, 1)]⟩ ⟨[(112, 1)], [(113, 1)]⟩ 10 10 5 0 =
       some (.longMaker 100) ∧
     cycleTrace ⟨[(100, 1)], [(101, 1)]⟩ ⟨[(112, 1)], [(113, 1)]⟩ 10 10 5 0
       tickerBTC 5 1 (.returns (some sampleOrderId)) false =
       [.placeOrder .maker .buy (some 100) 1 .limit true,
        .sleep 1,
        .placeOrder .taker .sell none 1 .market false,
        .record paradexName .buy 100 1]) :=
  ⟨by decide, C6_scenario_long_trade 10 5 1 tickerBTC sampleOrderId (by decide)⟩

/-- C9: for every ticker and every behaviour of the underlying client —
absent client, raising query, or a response whose values `float` cannot
convert — `get_orderbook` returns the blank book on failure; it always
returns a bids/asks record and never raises (the embedding is a total
function into `Book`, mirroring the `try`/`except` that maps every
exception to the blank book). -/
theorem C9_get_orderbook_never_errors (ticker : String) (cb : ClientBehavior)
    (h : cb.isFailure = true) :
    ParadexExchange.get_orderbook ticker cb = emptyBook :=
  get_orderbook_failure ticker cb h

/-- C9 witness: a raising client query on a concrete ticker. -/
theorem C9_get_orderbook_never_errors_witness :
    ClientBehavior.isFailure .raises = true ∧
    ParadexExchange.get_orderbook tickerBTC .raises = emptyBook :=
  ⟨rfl, C9_get_orderbook_never_errors tickerBTC .raises rfl⟩

/-- C10: every record appended by a completed long or short trade
carries the literal venue string `"paradex"`, for every configured
maker exchange name, every maker-leg outcome and every taker-leg
outcome (lines 212 and 242 hardcode the venue string). -/
theorem C10_records_always_venue_paradex (makerName : String)
    (fillTimeout price qty : ℚ) (makerResult : MakerPlaceResult)
    (takerRaises stopFlag : Bool) :
    ((recordVenues (execute_long_trade stopFlag makerName fillTimeout price qty
        makerResult takerRaises)).all (fun v => v == paradexName)) = true ∧
    ((recordVenues (execute_short_trade stopFlag makerName fillTimeout price qty
        makerResult takerRaises)).all (fun v => v == paradexName)) = true := by
  cases stopFlag <;> cases takerRaises <;>
  rcases makerResult with _ | ⟨_ | s⟩ <;>
  constructor <;>
  simp [execute_long_trade, execute_short_trade, recordVenues, truthyId] <;>
  intro x hx1 hx2 <;>
  rcases hx2 with rfl | rfl | rfl <;> rfl

end ArbBot
